import Mathlib

/-!
Shallow embedding of the virtual try-on application: the three-step
workflow state machine (upload / process / retry / approve / save-to-album
handlers), the remote image-edit client (data-URL codec, retry wrapper
with exponential backoff, response decoding), and the album page layout
arithmetic. Each definition is translated from the corresponding source
function; theorems settle the specification claims about them.
-/

namespace ProbadorVirtual

/-! ### JavaScript string helpers -/

/-- Truthiness of a JavaScript `string | null` value: truthy iff the value
is neither null nor the empty string. -/
def strTruthy : Option String → Bool
  | none => false
  | some s => s != ""

/-- Substring search over character lists: does the pattern occur
contiguously somewhere in the list? -/
def charsIncludes (pat : List Char) : List Char → Bool
  | [] => pat.isEmpty
  | c :: cs => List.isPrefixOf pat (c :: cs) || charsIncludes pat cs

/-- JavaScript `String.prototype.includes`: substring containment. -/
def strIncludes (s pat : String) : Bool :=
  charsIncludes pat.data s.data

/-! ### Workflow state machine (App component) -/

/-- Per-step status, from `type StepStatus` in the app source. -/
inductive StepStatus
  | idle
  | uploaded
  | processing
  | done
  | error
  deriving DecidableEq, Repr

/-- Per-step state, from `interface StepState` in the app source. -/
structure StepState where
  status : StepStatus
  originalImage : Option String
  processedImage : Option String
  error : Option String
  approved : Bool
  deriving DecidableEq, Repr

/-- The `initialStepState` constant of the app source. -/
def initialStepState : StepState :=
  { status := .idle, originalImage := none, processedImage := none,
    error := none, approved := false }

/-- The app state: the three step slots plus the album list. -/
structure Workflow where
  step1 : StepState
  step2 : StepState
  step3 : StepState
  album : List String
  deriving DecidableEq, Repr

/-- The state of the app when it mounts. -/
def initialWorkflow : Workflow :=
  { step1 := initialStepState, step2 := initialStepState,
    step3 := initialStepState, album := [] }

/-- Spec-side selector: step `k` of the workflow (steps are numbered 1-3;
any other number selects step 3, mirroring how the handlers treat the
step argument). -/
def stepN (w : Workflow) (k : Nat) : StepState :=
  if k == 1 then w.step1 else if k == 2 then w.step2 else w.step3

/-- `handleImageUpload`: store the freshly read data URL into step 1 or 2
and reset every downstream step. -/
def handleImageUpload (w : Workflow) (step : Nat) (imageUrl : String) : Workflow :=
  if step == 1 then
    { w with
      step1 := { initialStepState with status := .uploaded, originalImage := some imageUrl },
      step2 := initialStepState,
      step3 := initialStepState }
  else if step == 2 then
    { w with
      step2 := { initialStepState with status := .uploaded, originalImage := some imageUrl },
      step3 := initialStepState }
  else w

/-- The remote call `handleProcess` would issue for a given step, if any:
`removeAccessories` for step 1, `isolateOutfit` for step 2, `dressModel`
for step 3, with the same truthiness preconditions as the source's
if-chain. `none` means the handler returns without calling the API. -/
inductive ApiCall
  | removeAccessories (img : String)
  | isolateOutfit (img : String)
  | dressModel (modelImg outfitImg : String)
  deriving DecidableEq, Repr

/-- Which API call `handleProcess` selects for a step (the source's
if-chain over `step` and the truthiness of the step images). -/
def plannedCall (w : Workflow) (step : Nat) : Option ApiCall :=
  if step == 1 && strTruthy w.step1.originalImage then
    some (.removeAccessories (w.step1.originalImage.getD ""))
  else if step == 2 && strTruthy w.step2.originalImage then
    some (.isolateOutfit (w.step2.originalImage.getD ""))
  else if step == 3 && strTruthy w.step1.processedImage && strTruthy w.step2.processedImage then
    some (.dressModel (w.step1.processedImage.getD "") (w.step2.processedImage.getD ""))
  else none

/-- The first state update of `handleProcess`:
`updater(prev => ({ ...prev, status: processing, error: null }))`. -/
def startProcessing (s : StepState) : StepState :=
  { s with status := .processing, error := none }

/-- The second state update of `handleProcess`: on success store the
result URL with status done, on failure store the message with status
error. -/
def finishProcessing (s : StepState) (outcome : Except String String) : StepState :=
  match outcome with
  | .ok resultUrl => { s with status := .done, processedImage := some resultUrl }
  | .error msg => { s with status := .error, error := some msg }

/-- `handleProcess`: select updater and API call; if no branch matches,
return with no state change and no call. `outcome` is the result of the
awaited remote call. -/
def handleProcess (w : Workflow) (step : Nat) (outcome : Except String String) : Workflow :=
  match plannedCall w step with
  | none => w
  | some c =>
    match c with
    | .removeAccessories _ =>
        { w with step1 := finishProcessing (startProcessing w.step1) outcome }
    | .isolateOutfit _ =>
        { w with step2 := finishProcessing (startProcessing w.step2) outcome }
    | .dressModel _ _ =>
        { w with step3 := finishProcessing (startProcessing w.step3) outcome }

/-- `handleRetry`: steps 1 and 2 re-enter `uploaded` keeping only the
original image and cascade-reset downstream steps; step 3 re-invokes
`handleProcess(3)` (its `outcome` argument is the new remote result). -/
def handleRetry (w : Workflow) (step : Nat) (outcome : Except String String) : Workflow :=
  if step == 1 then
    { w with
      step1 := { initialStepState with status := .uploaded, originalImage := w.step1.originalImage },
      step2 := initialStepState,
      step3 := initialStepState }
  else if step == 2 then
    { w with
      step2 := { initialStepState with status := .uploaded, originalImage := w.step2.originalImage },
      step3 := initialStepState }
  else if step == 3 then
    handleProcess w 3 outcome
  else w

/-- `handleApprove`: set the approved flag of step 1 or 2. The source
performs no status check here; the done-only restriction lives in the UI
layer, which only renders the approve button when the step is done. -/
def handleApprove (w : Workflow) (step : Nat) : Workflow :=
  if step == 1 then { w with step1 := { w.step1 with approved := true } }
  else if step == 2 then { w with step2 := { w.step2 with approved := true } }
  else w

/-- `handleSaveToAlbum`: append the step-3 result to the album and reset
steps 2 and 3; a falsy (null or empty) step-3 result makes it return
immediately. -/
def handleSaveToAlbum (w : Workflow) : Workflow :=
  if strTruthy w.step3.processedImage then
    { w with
      album := w.album ++ [w.step3.processedImage.getD ""],
      step2 := initialStepState,
      step3 := initialStepState }
  else w

deriving instance DecidableEq for Except

/-- The events that drive the workflow state machine. `process` and
`retry` carry the outcome the remote call would produce. -/
inductive Event
  | upload (step : Nat) (imageUrl : String)
  | process (step : Nat) (outcome : Except String String)
  | retry (step : Nat) (outcome : Except String String)
  | approve (step : Nat)
  | saveToAlbum
  deriving DecidableEq, Repr

/-- One transition of the workflow state machine. -/
def stepEvent (w : Workflow) : Event → Workflow
  | .upload k img => handleImageUpload w k img
  | .process k oc => handleProcess w k oc
  | .retry k oc => handleRetry w k oc
  | .approve k => handleApprove w k
  | .saveToAlbum => handleSaveToAlbum w

/-- Run a sequence of events from a given state. -/
def runFrom (w : Workflow) (es : List Event) : Workflow :=
  es.foldl stepEvent w

/-- Run a sequence of events from the initial state. -/
def run (es : List Event) : Workflow :=
  runFrom initialWorkflow es

/-- The UI-enforced guard on an event: an approve of step 1 or 2 is only
offered when that step's status is done. All other events are always
available to the handlers. -/
def approveGuard (w : Workflow) : Event → Bool
  | .approve k =>
    if k == 1 then w.step1.status == .done
    else if k == 2 then w.step2.status == .done
    else true
  | _ => true

/-- A trace is guarded when every event satisfies `approveGuard` in the
state where it fires. -/
def guardedFrom (w : Workflow) : List Event → Bool
  | [] => true
  | e :: es => approveGuard w e && guardedFrom (stepEvent w e) es

/-! ### Remote image edit client (geminiService) -/

/-- `maxRetries` constant of `callGeminiWithRetry`. -/
def maxRetries : Nat := 3

/-- `initialDelay` constant of `callGeminiWithRetry` (milliseconds). -/
def initialDelay : Nat := 1000

/-- The retriable-error test of `callGeminiWithRetry`:
`errorMessage.includes(500) || errorMessage.includes(503) ||
errorMessage.includes(INTERNAL)`. -/
def isInternalError (msg : String) : Bool :=
  strIncludes msg "500" || strIncludes msg "503" || strIncludes msg "INTERNAL"

/-- Observable behaviour of one client invocation: the final result, the
number of attempts made, and the backoff delays (in milliseconds) waited
between attempts, in order. -/
structure CallTrace (α : Type) where
  result : Except String α
  attempts : Nat
  delays : List Nat
  deriving Repr

/-- The retry loop of `callGeminiWithRetry`, with the attempt counter made
explicit and the remaining loop iterations as fuel (the loop body runs at
most `maxRetries` times; exhausting the fuel corresponds to falling out of
the loop into the final throw, which the guard makes unreachable).
`oracle n` is the outcome of the n-th `generateContent` call. -/
def callGeminiLoopFuel {α : Type} (oracle : Nat → Except String α) :
    Nat → Nat → CallTrace α
  | _, 0 => ⟨.error "Gemini API call failed after all retries.", 0, []⟩
  | attempt, fuel + 1 =>
    match oracle attempt with
    | .ok v => ⟨.ok v, 1, []⟩
    | .error e =>
      if isInternalError e && decide (attempt < maxRetries) then
        let rest := callGeminiLoopFuel oracle (attempt + 1) fuel
        ⟨rest.result, rest.attempts + 1, initialDelay * 2 ^ (attempt - 1) :: rest.delays⟩
      else ⟨.error e, 1, []⟩

/-- `callGeminiWithRetry`: run the loop from attempt 1. -/
def callGeminiWithRetry {α : Type} (oracle : Nat → Except String α) : CallTrace α :=
  callGeminiLoopFuel oracle 1 maxRetries

/-- Inline image data of a content part (mime type plus base64 payload). -/
structure InlineData where
  mimeType : String
  data : String
  deriving DecidableEq, Repr

/-- A content part of a request or response: inline image data or text. -/
structure Part where
  inlineData : Option InlineData := none
  text : Option String := none
  deriving DecidableEq, Repr

/-- The content of a response candidate. -/
structure Content where
  parts : Option (List Part)
  deriving DecidableEq, Repr

/-- One response candidate. -/
structure Candidate where
  content : Option Content
  deriving DecidableEq, Repr

/-- A `generateContent` response: the candidate list plus the SDK's
aggregated `text` accessor. -/
structure GenerateContentResponse where
  candidates : Option (List Candidate)
  text : Option String
  deriving DecidableEq, Repr

/-- `response.candidates?.[0]?.content?.parts || []`: the parts of the
first candidate, or the empty list when any link is absent. -/
def responseParts (r : GenerateContentResponse) : List Part :=
  match r.candidates with
  | some (c :: _) =>
    match c.content with
    | some ct => ct.parts.getD []
    | none => []
  | _ => []

/-- First part of the list bearing inline data, if any (the scan loop of
`processGeminiResponse`). -/
def firstInlineData : List Part → Option InlineData
  | [] => none
  | p :: ps =>
    match p.inlineData with
    | some d => some d
    | none => firstInlineData ps

/-- `processGeminiResponse`: return the first inline-data part re-encoded
as a data URL, or fail with the response text (or a placeholder when the
text is falsy). -/
def processGeminiResponse (response : GenerateContentResponse) : Except String String :=
  match firstInlineData (responseParts response) with
  | some d => .ok ("data:" ++ d.mimeType ++ ";base64," ++ d.data)
  | none =>
    .error ("The AI model responded with text instead of an image: \"" ++
      (match response.text with
       | some t => if t = "" then "No text response received." else t
       | none => "No text response received.") ++ "\"")

/-- JavaScript word character (regex `\w`): ASCII letter, digit or
underscore. -/
def isWordChar (c : Char) : Bool :=
  c.isAlphanum || c == '_'

/-- JavaScript regex line terminators, which `.` never matches. -/
def isLineTerminator (c : Char) : Bool :=
  c == '\n' || c == '\r' || c == '\u2028' || c == '\u2029'

/-- Consume an exact literal from the front of a character list. -/
def dropLit : List Char → List Char → Option (List Char)
  | [], s => some s
  | _ :: _, [] => none
  | p :: ps, c :: cs => if p == c then dropLit ps cs else none

/-- Model of matching `imageDataUrl` against the anchored JavaScript regex
of `fileToGenerativePart`. The mime group is `image/` followed by a
maximal nonempty run of word characters (the following literal `;` is not
a word character, so greedy matching is exact); the payload group `(.*)$`
matches the whole remainder provided it contains no line terminator,
since `.` excludes line terminators and `$` without the multiline flag
only matches at the end of input. Returns the two capture groups. -/
def matchDataUrl (s : String) : Option (String × String) :=
  match dropLit "data:image/".data s.data with
  | none => none
  | some r1 =>
    let w := r1.takeWhile isWordChar
    let r2 := r1.dropWhile isWordChar
    if w.isEmpty then none
    else
      match dropLit ";base64,".data r2 with
      | none => none
      | some payload =>
        if payload.all (fun c => !isLineTerminator c) then
          some (String.mk ("image/".data ++ w), String.mk payload)
        else none

/-- The message of the format error thrown by `fileToGenerativePart`. -/
def invalidDataUrlMsg : String :=
  "Invalid image data URL format. Expected \x27data:image/...;base64,...\x27"

/-- `fileToGenerativePart`: decompose a data URL into an inline-data part
or fail with the format error. -/
def fileToGenerativePart (imageDataUrl : String) : Except String Part :=
  match matchDataUrl imageDataUrl with
  | none => .error invalidDataUrlMsg
  | some (mimeType, data) => .ok { inlineData := some ⟨mimeType, data⟩ }

/-- `removeAccessories`: encode the image, call the model with retry,
decode the response. A format error aborts before any remote attempt. -/
def removeAccessories (oracle : Nat → Except String GenerateContentResponse)
    (imageDataUrl : String) : CallTrace String :=
  match fileToGenerativePart imageDataUrl with
  | .error e => ⟨.error e, 0, []⟩
  | .ok _imagePart =>
    let t := callGeminiWithRetry oracle
    ⟨match t.result with
      | .ok response => processGeminiResponse response
      | .error e => .error e,
     t.attempts, t.delays⟩

/-! ### Album compositor layout (createAlbumPage) -/

/-- Page width in canvas units. -/
def canvasWidth : ℚ := 2480

/-- Page height in canvas units. -/
def canvasHeight : ℚ := 3508

/-- `grid.cols`. -/
def gridCols : ℕ := 2

/-- `grid.padding`. -/
def gridPadding : ℚ := 80

/-- `contentTopMargin`: space reserved for the header. -/
def contentTopMargin : ℚ := 350

/-- `contentWidth = canvasWidth - grid.padding * 2`. -/
def contentWidth : ℚ := canvasWidth - gridPadding * 2

/-- `cellWidth = (contentWidth - grid.padding * (grid.cols - 1)) / grid.cols`. -/
def cellWidth : ℚ := (contentWidth - gridPadding * ((gridCols : ℚ) - 1)) / (gridCols : ℚ)

/-- Natural dimensions of a loaded image. -/
structure ImgDim where
  naturalWidth : ℚ
  naturalHeight : ℚ
  deriving DecidableEq, Repr

/-- `img.naturalWidth / img.naturalHeight`. -/
def aspectRatio (img : ImgDim) : ℚ :=
  img.naturalWidth / img.naturalHeight

/-- `drawHeight = drawWidth / aspectRatio` with `drawWidth = cellWidth`. -/
def drawHeight (img : ImgDim) : ℚ :=
  cellWidth / aspectRatio img

/-- `rows = Math.ceil(loadedImages.length / grid.cols)`. -/
def rowCount (n : ℕ) : ℤ :=
  ⌈(n : ℚ) / (gridCols : ℚ)⌉

/-- `col = index % grid.cols`. -/
def colOf (index : ℕ) : ℕ := index % gridCols

/-- `row = Math.floor(index / grid.cols)`. -/
def rowOf (index : ℕ) : ℕ := index / gridCols

/-- `x = grid.padding + col * (cellWidth + grid.padding)`. -/
def xPos (index : ℕ) : ℚ :=
  gridPadding + (colOf index : ℚ) * (cellWidth + gridPadding)

/-- The vertical offset of the image at `index`: start below the header
band plus one padding, then add, for each prior row, the scaled height of
that row's left-column image plus one padding. -/
def yOffsetFor (imgs : List ImgDim) (index : ℕ) : ℚ :=
  (List.range (rowOf index)).foldl
    (fun acc i => acc + drawHeight (imgs.getD (i * gridCols) ⟨1, 1⟩) + gridPadding)
    (contentTopMargin + gridPadding)

/-- A concrete remote-outcome sequence used to exercise the retry
wrapper: two transient failures then a success. -/
def twoTransientThenOk : Nat → Except String GenerateContentResponse :=
  fun n =>
    if n == 1 then .error "http 500"
    else if n == 2 then .error "INTERNAL glitch"
    else .ok { candidates := none, text := none }

/-! ### Helper lemmas -/

/-- `plannedCall` at step 1 reduces to its first branch. -/
theorem plannedCall_one (w : Workflow) :
    plannedCall w 1 =
      if strTruthy w.step1.originalImage then
        some (.removeAccessories (w.step1.originalImage.getD "")) else none := by
  simp [plannedCall]

/-- `plannedCall` at step 2 reduces to its second branch. -/
theorem plannedCall_two (w : Workflow) :
    plannedCall w 2 =
      if strTruthy w.step2.originalImage then
        some (.isolateOutfit (w.step2.originalImage.getD "")) else none := by
  simp [plannedCall]

/-- `plannedCall` at step 3 reduces to its third branch. -/
theorem plannedCall_three (w : Workflow) :
    plannedCall w 3 =
      if strTruthy w.step1.processedImage && strTruthy w.step2.processedImage then
        some (.dressModel (w.step1.processedImage.getD "") (w.step2.processedImage.getD ""))
      else none := by
  simp [plannedCall]

/-- With no planned call, `handleProcess` is the identity. -/
theorem handleProcess_noop (w : Workflow) (k : Nat) (oc : Except String String)
    (h : plannedCall w k = none) : handleProcess w k oc = w := by
  simp [handleProcess, h]

/-- The net effect of the two `handleProcess` updates on a failure. -/
theorem finishStart_error_spec (s : StepState) (msg : String) :
    finishProcessing (startProcessing s) (.error msg) =
      { s with status := .error, error := some msg } := rfl

/-- The net effect of the two `handleProcess` updates on a success. -/
theorem finishStart_ok_spec (s : StepState) (url : String) :
    finishProcessing (startProcessing s) (.ok url) =
      { s with status := .done, processedImage := some url, error := none } := rfl

/-- The `handleProcess` updates never touch the approved flag. -/
theorem finishStart_approved (s : StepState) (oc : Except String String) :
    (finishProcessing (startProcessing s) oc).approved = s.approved := by
  cases oc <;> rfl

/-- `handleProcess` never changes the album. -/
theorem handleProcess_album (w : Workflow) (k : Nat) (oc : Except String String) :
    (handleProcess w k oc).album = w.album := by
  unfold handleProcess
  cases hp : plannedCall w k with
  | none => rfl
  | some c => cases c <;> rfl

/-- `handleRetry` never changes the album. -/
theorem handleRetry_album (w : Workflow) (k : Nat) (oc : Except String String) :
    (handleRetry w k oc).album = w.album := by
  unfold handleRetry
  split
  · rfl
  · split
    · rfl
    · split
      · exact handleProcess_album w 3 oc
      · rfl

/-- A planned call pins down the step number and its precondition. -/
theorem plannedCall_isSome (w : Workflow) (k : Nat)
    (hc : (plannedCall w k).isSome = true) :
    (k = 1 ∧ strTruthy w.step1.originalImage = true) ∨
    (k = 2 ∧ strTruthy w.step2.originalImage = true) ∨
    (k = 3 ∧ strTruthy w.step1.processedImage = true ∧
      strTruthy w.step2.processedImage = true) := by
  unfold plannedCall at hc
  split at hc
  · rename_i h
    rw [Bool.and_eq_true] at h
    exact Or.inl ⟨by simpa using h.1, h.2⟩
  · split at hc
    · rename_i h
      rw [Bool.and_eq_true] at h
      exact Or.inr (Or.inl ⟨by simpa using h.1, h.2⟩)
    · split at hc
      · rename_i h
        rw [Bool.and_eq_true, Bool.and_eq_true] at h
        exact Or.inr (Or.inr ⟨by simpa using h.1.1, h.1.2, h.2⟩)
      · simp at hc

/-- `handleProcess` at step 1 under its precondition. -/
theorem handleProcess_one (w : Workflow) (oc : Except String String)
    (h : strTruthy w.step1.originalImage = true) :
    handleProcess w 1 oc =
      { w with step1 := finishProcessing (startProcessing w.step1) oc } := by
  simp [handleProcess, plannedCall_one, h]

/-- `handleProcess` at step 2 under its precondition. -/
theorem handleProcess_two (w : Workflow) (oc : Except String String)
    (h : strTruthy w.step2.originalImage = true) :
    handleProcess w 2 oc =
      { w with step2 := finishProcessing (startProcessing w.step2) oc } := by
  simp [handleProcess, plannedCall_two, h]

/-- `handleProcess` at step 3 under its precondition. -/
theorem handleProcess_three (w : Workflow) (oc : Except String String)
    (h1 : strTruthy w.step1.processedImage = true)
    (h2 : strTruthy w.step2.processedImage = true) :
    handleProcess w 3 oc =
      { w with step3 := finishProcessing (startProcessing w.step3) oc } := by
  simp [handleProcess, plannedCall_three, h1, h2]

/-! ### Claim theorems -/

/-- Claim C4: uploading a new image at step 1 or 2 stores it as that
step's original image with status `uploaded`, clears the step's processed
image, error and approval, resets every downstream step to the initial
state, and leaves the album (and, for step 2, step 1) unchanged. -/
theorem c4_upload_resets (w : Workflow) (img : String) :
    handleImageUpload w 1 img =
      { step1 := { status := .uploaded, originalImage := some img, processedImage := none,
                   error := none, approved := false },
        step2 := initialStepState, step3 := initialStepState, album := w.album } ∧
    handleImageUpload w 2 img =
      { step1 := w.step1,
        step2 := { status := .uploaded, originalImage := some img, processedImage := none,
                   error := none, approved := false },
        step3 := initialStepState, album := w.album } :=
  ⟨rfl, rfl⟩

/-- Claim C5: retry on step 1 re-enters `uploaded` keeping only the
original image and resets steps 2 and 3; retry on step 2 does the same
for step 2 resetting only step 3; retry on step 3 re-invokes Process for
step 3 and leaves steps 1 and 2 (and the album) unchanged. -/
theorem c5_retry (w : Workflow) (oc : Except String String) :
    handleRetry w 1 oc =
      { step1 := { status := .uploaded, originalImage := w.step1.originalImage,
                   processedImage := none, error := none, approved := false },
        step2 := initialStepState, step3 := initialStepState, album := w.album } ∧
    handleRetry w 2 oc =
      { step1 := w.step1,
        step2 := { status := .uploaded, originalImage := w.step2.originalImage,
                   processedImage := none, error := none, approved := false },
        step3 := initialStepState, album := w.album } ∧
    handleRetry w 3 oc = handleProcess w 3 oc ∧
    (handleRetry w 3 oc).step1 = w.step1 ∧
    (handleRetry w 3 oc).step2 = w.step2 ∧
    (handleRetry w 3 oc).album = w.album := by
  have h3 : handleRetry w 3 oc = handleProcess w 3 oc := rfl
  refine ⟨rfl, rfl, h3, ?_, ?_, ?_⟩ <;> rw [h3]
  · unfold handleProcess
    cases hcond : strTruthy w.step1.processedImage && strTruthy w.step2.processedImage <;>
      simp [plannedCall_three, hcond]
  · unfold handleProcess
    cases hcond : strTruthy w.step1.processedImage && strTruthy w.step2.processedImage <;>
      simp [plannedCall_three, hcond]
  · exact handleProcess_album w 3 oc

/-- Claim C3: Process is a no-op — the whole workflow state is unchanged
and no remote call is selected — when its step-specific precondition
fails: for step 3 unless both upstream processed images are truthy, for
steps 1 and 2 unless the step's own original image is truthy. -/
theorem c3_process_noop (w : Workflow) (oc : Except String String) :
    (¬(strTruthy w.step1.processedImage = true ∧ strTruthy w.step2.processedImage = true) →
      handleProcess w 3 oc = w ∧ plannedCall w 3 = none) ∧
    (strTruthy w.step1.originalImage = false →
      handleProcess w 1 oc = w ∧ plannedCall w 1 = none) ∧
    (strTruthy w.step2.originalImage = false →
      handleProcess w 2 oc = w ∧ plannedCall w 2 = none) := by
  refine ⟨?_, ?_, ?_⟩
  · intro h
    have hcond : (strTruthy w.step1.processedImage && strTruthy w.step2.processedImage) = false := by
      cases hb1 : strTruthy w.step1.processedImage <;>
        cases hb2 : strTruthy w.step2.processedImage <;> simp_all
    have hnone : plannedCall w 3 = none := by
      rw [plannedCall_three, hcond]; rfl
    exact ⟨handleProcess_noop w 3 oc hnone, hnone⟩
  · intro h
    have hnone : plannedCall w 1 = none := by
      rw [plannedCall_one, h]; rfl
    exact ⟨handleProcess_noop w 1 oc hnone, hnone⟩
  · intro h
    have hnone : plannedCall w 2 = none := by
      rw [plannedCall_two, h]; rfl
    exact ⟨handleProcess_noop w 2 oc hnone, hnone⟩

/-- Witness for C3 at the initial state, where every precondition fails. -/
theorem c3_witness :
    handleProcess initialWorkflow 3 (Except.ok "x") = initialWorkflow ∧
    plannedCall initialWorkflow 3 = none :=
  (c3_process_noop initialWorkflow (Except.ok "x")).1 (by decide)

/-- Claim C10: when the Process precondition holds and the remote call
fails, only the step's status (now `error`) and error message change;
its original image, processed image and approval keep their prior values,
and the other steps and the album are untouched. -/
theorem c10_process_failure_frame (w : Workflow) (k : Nat) (msg : String)
    (hc : (plannedCall w k).isSome = true) :
    (stepN (handleProcess w k (.error msg)) k).status = StepStatus.error ∧
    (stepN (handleProcess w k (.error msg)) k).error = some msg ∧
    (stepN (handleProcess w k (.error msg)) k).originalImage = (stepN w k).originalImage ∧
    (stepN (handleProcess w k (.error msg)) k).processedImage = (stepN w k).processedImage ∧
    (stepN (handleProcess w k (.error msg)) k).approved = (stepN w k).approved ∧
    (∀ j, (j = 1 ∨ j = 2 ∨ j = 3) → j ≠ k →
      stepN (handleProcess w k (.error msg)) j = stepN w j) ∧
    (handleProcess w k (.error msg)).album = w.album := by
  rcases plannedCall_isSome w k hc with ⟨rfl, h⟩ | ⟨rfl, h⟩ | ⟨rfl, h1, h2⟩
  · rw [handleProcess_one w _ h, finishStart_error_spec]
    refine ⟨rfl, rfl, rfl, rfl, rfl, ?_, rfl⟩
    rintro j (rfl | rfl | rfl) hj <;> first | exact absurd rfl hj | rfl
  · rw [handleProcess_two w _ h, finishStart_error_spec]
    refine ⟨rfl, rfl, rfl, rfl, rfl, ?_, rfl⟩
    rintro j (rfl | rfl | rfl) hj <;> first | exact absurd rfl hj | rfl
  · rw [handleProcess_three w _ h1 h2, finishStart_error_spec]
    refine ⟨rfl, rfl, rfl, rfl, rfl, ?_, rfl⟩
    rintro j (rfl | rfl | rfl) hj <;> first | exact absurd rfl hj | rfl

/-- Witness for C10: a failing fusion call on a ready workflow. -/
theorem c10_witness :
    (stepN (handleProcess
        { step1 := { status := .done, originalImage := some "a", processedImage := some "p1",
                     error := none, approved := true },
          step2 := { status := .done, originalImage := some "b", processedImage := some "p2",
                     error := none, approved := true },
          step3 := initialStepState, album := [] } 3 (.error "boom")) 3).status =
      StepStatus.error ∧
    (stepN (handleProcess
        { step1 := { status := .done, originalImage := some "a", processedImage := some "p1",
                     error := none, approved := true },
          step2 := { status := .done, originalImage := some "b", processedImage := some "p2",
                     error := none, approved := true },
          step3 := initialStepState, album := [] } 3 (.error "boom")) 3).error = some "boom" :=
  ⟨(c10_process_failure_frame _ 3 "boom" (by decide)).1,
   (c10_process_failure_frame _ 3 "boom" (by decide)).2.1⟩

/-- Claim C6: the album grows only through the explicit save action: with
a truthy step-3 result, save appends it to the album (prior entries kept
in order), resets steps 2 and 3 and keeps step 1; with a falsy result it
is a no-op; no other handler ever changes the album. -/
theorem c6_album (w : Workflow) :
    (∀ s : String, w.step3.processedImage = some s → s ≠ "" →
      handleSaveToAlbum w =
        { step1 := w.step1, step2 := initialStepState, step3 := initialStepState,
          album := w.album ++ [s] }) ∧
    (strTruthy w.step3.processedImage = false → handleSaveToAlbum w = w) ∧
    (∀ k img, (handleImageUpload w k img).album = w.album) ∧
    (∀ k oc, (handleProcess w k oc).album = w.album) ∧
    (∀ k oc, (handleRetry w k oc).album = w.album) ∧
    (∀ k, (handleApprove w k).album = w.album) := by
  refine ⟨?_, ?_, ?_, ?_, ?_, ?_⟩
  · intro s hs hne
    unfold handleSaveToAlbum
    rw [hs]
    simp [strTruthy, hne]
  · intro h
    unfold handleSaveToAlbum
    rw [h]
    rfl
  · intro k img
    unfold handleImageUpload
    split
    · rfl
    · split <;> rfl
  · exact fun k oc => handleProcess_album w k oc
  · exact fun k oc => handleRetry_album w k oc
  · intro k
    unfold handleApprove
    split
    · rfl
    · split <;> rfl

/-- Witness for C6: saving a completed result appends it and resets
steps 2 and 3. -/
theorem c6_witness :
    handleSaveToAlbum
        { step1 := initialStepState, step2 := initialStepState,
          step3 := { status := .done, originalImage := none, processedImage := some "res",
                     error := none, approved := false },
          album := ["old"] } =
      { step1 := initialStepState, step2 := initialStepState, step3 := initialStepState,
        album := ["old"] ++ ["res"] } :=
  (c6_album _).1 "res" rfl (by decide)

/-- Running an extended trace runs the last event on the result. -/
theorem runFrom_append (w : Workflow) (es : List Event) (e : Event) :
    runFrom w (es ++ [e]) = stepEvent (runFrom w es) e := by
  simp [runFrom, List.foldl_append]

/-- Guardedness of an extended trace splits into the trace and the last
event in the final state. -/
theorem guardedFrom_append (w : Workflow) (es : List Event) (e : Event) :
    guardedFrom w (es ++ [e]) =
      (guardedFrom w es && approveGuard (runFrom w es) e) := by
  induction es generalizing w with
  | nil => simp [guardedFrom, runFrom]
  | cons a l ih =>
    show (approveGuard w a && guardedFrom (stepEvent w a) (l ++ [e])) =
      ((approveGuard w a && guardedFrom (stepEvent w a) l) &&
        approveGuard (runFrom (stepEvent w a) l) e)
    rw [ih, Bool.and_assoc]

/-- `handleProcess` never changes any step's approved flag. -/
theorem handleProcess_approved (w : Workflow) (j k : Nat) (oc : Except String String) :
    (stepN (handleProcess w j oc) k).approved = (stepN w k).approved := by
  unfold handleProcess
  cases hp : plannedCall w j with
  | none => rfl
  | some c =>
    cases c <;> unfold stepN
    all_goals repeat' split
    all_goals simp [finishStart_approved]

/-- One guarded transition can only turn a step's approved flag on when
that step's status was already done. -/
theorem approved_step (w : Workflow) (e : Event) (k : Nat)
    (hg : approveGuard w e = true)
    (ha : (stepN (stepEvent w e) k).approved = true) :
    (stepN w k).approved = true ∨ (stepN w k).status = StepStatus.done := by
  cases e with
  | upload j img =>
    left
    rw [show stepEvent w (.upload j img) = handleImageUpload w j img from rfl] at ha
    unfold handleImageUpload at ha
    unfold stepN at ha ⊢
    repeat' split at ha
    all_goals simp_all [initialStepState]
  | process j oc =>
    left
    rw [show stepEvent w (.process j oc) = handleProcess w j oc from rfl,
      handleProcess_approved] at ha
    exact ha
  | retry j oc =>
    rw [show stepEvent w (.retry j oc) = handleRetry w j oc from rfl] at ha
    unfold handleRetry at ha
    split at ha
    · left; unfold stepN at ha ⊢; repeat' split at ha
      all_goals simp_all [initialStepState]
    · split at ha
      · left; unfold stepN at ha ⊢; repeat' split at ha
        all_goals simp_all [initialStepState]
      · split at ha
        · rw [handleProcess_approved] at ha
          exact Or.inl ha
        · exact Or.inl ha
  | approve j =>
    rw [show stepEvent w (.approve j) = handleApprove w j from rfl] at ha
    unfold handleApprove at ha
    rw [show approveGuard w (.approve j) =
      (if j == 1 then w.step1.status == .done
       else if j == 2 then w.step2.status == .done else true) from rfl] at hg
    unfold stepN at ha ⊢
    repeat' split at ha
    all_goals repeat' split at hg
    all_goals simp_all
  | saveToAlbum =>
    left
    rw [show stepEvent w .saveToAlbum = handleSaveToAlbum w from rfl] at ha
    unfold handleSaveToAlbum at ha
    unfold stepN at ha ⊢
    repeat' split at ha
    all_goals simp_all [initialStepState]

/-- Claim C1 (amended): the source's `handleApprove` sets `approved` with
no status check (the done-only restriction is UI-enforced), so the
invariant holds for guarded traces: along any event sequence from the
initial state in which an approve only fires when the target step's
status is done, a step with `approved = true` previously reached status
`done` (at the end of some prefix of the trace). -/
theorem c1_approved_implies_done (es : List Event) (k : Nat)
    (_hk : k = 1 ∨ k = 2 ∨ k = 3)
    (hg : guardedFrom initialWorkflow es = true)
    (ha : (stepN (run es) k).approved = true) :
    ∃ es2, es2 <+: es ∧ (stepN (run es2) k).status = StepStatus.done := by
  clear _hk
  induction es using List.reverseRecOn with
  | nil =>
    exfalso
    revert ha
    unfold run runFrom stepN initialWorkflow initialStepState
    split <;> simp
  | append_singleton es e ih =>
    rw [guardedFrom_append, Bool.and_eq_true] at hg
    rw [show run (es ++ [e]) = stepEvent (run es) e from runFrom_append _ _ _] at ha
    rcases approved_step (run es) e k hg.2 ha with h | h
    · obtain ⟨es2, hp, hd⟩ := ih hg.1 h
      exact ⟨es2, hp.trans (List.prefix_append es [e]), hd⟩
    · exact ⟨es, List.prefix_append es [e], h⟩

/-- Counterexample for C1 as stated: `handleApprove` performs no status
check, so approving step 1 in the initial state sets `approved` even
though the step never reached `done`, and approve on a non-done step is
not a no-op. -/
theorem c1_counterexample :
    (¬ ∀ es : List Event, (stepN (run es) 1).approved = true →
        ∃ es2, es2 <+: es ∧ (stepN (run es2) 1).status = StepStatus.done) ∧
    (¬ ∀ w : Workflow, w.step1.status ≠ StepStatus.done → handleApprove w 1 = w) := by
  constructor
  · intro h
    obtain ⟨es2, hp, hd⟩ := h [Event.approve 1] (by decide)
    obtain ⟨t, ht⟩ := hp
    cases es2 with
    | nil => revert hd; decide
    | cons a l =>
      rw [List.cons_append] at ht
      injection ht with h1 h2
      obtain ⟨hl, -⟩ := List.append_eq_nil.mp h2
      subst h1; subst hl
      revert hd; decide
  · intro h
    have h2 := h initialWorkflow (by decide)
    revert h2; decide

/-- Witness for C1: a guarded trace that uploads, processes and approves
step 1; the processed prefix indeed reached `done`. -/
theorem c1_witness :
    ∃ es2, es2 <+: [Event.upload 1 "img", Event.process 1 (Except.ok "out"), Event.approve 1] ∧
      (stepN (run es2) 1).status = StepStatus.done :=
  c1_approved_implies_done
    [Event.upload 1 "img", Event.process 1 (Except.ok "out"), Event.approve 1] 1
    (Or.inl rfl) (by decide) (by decide)

/-- Claim C2: for every sequence of remote outcomes, the retry wrapper
makes between 1 and 3 attempts and returns the outcome of its last
attempt; every attempt before the last failed with a transient message
(containing 500, 503 or INTERNAL) and was followed by a wait of
1000ms × 2^(n−1); the wrapper only stops before attempt 3 on a success
or a non-transient failure, and it never waits after its last attempt. -/
theorem c2_retry_policy (oracle : Nat → Except String GenerateContentResponse) :
    1 ≤ (callGeminiWithRetry oracle).attempts ∧
    (callGeminiWithRetry oracle).attempts ≤ maxRetries ∧
    (callGeminiWithRetry oracle).result = oracle (callGeminiWithRetry oracle).attempts ∧
    (∀ n, 1 ≤ n → n < (callGeminiWithRetry oracle).attempts →
      ∃ e, oracle n = .error e ∧ isInternalError e = true) ∧
    ((callGeminiWithRetry oracle).attempts < maxRetries →
      ∀ e, oracle ((callGeminiWithRetry oracle).attempts) = .error e →
        isInternalError e = false) ∧
    (callGeminiWithRetry oracle).delays =
      (List.range ((callGeminiWithRetry oracle).attempts - 1)).map
        (fun i => initialDelay * 2 ^ i) := by
  have hT : callGeminiWithRetry oracle = callGeminiLoopFuel oracle 1 3 := rfl
  rw [hT]
  cases h1 : oracle 1 with
  | ok v1 =>
    have hval : callGeminiLoopFuel oracle 1 3 = ⟨.ok v1, 1, []⟩ := by
      simp [callGeminiLoopFuel, maxRetries, h1]
    rw [hval]
    refine ⟨by norm_num, by norm_num [maxRetries], h1.symm, ?_, ?_, by norm_num [initialDelay, List.range_succ]⟩
    · intro n hn1 hn2
      have hn : n < 1 := hn2
      omega
    · intro _ e he
      have he2 : oracle 1 = .error e := he
      rw [h1] at he2
      cases he2
  | error e1 =>
    cases hi1 : isInternalError e1 with
    | false =>
      have hval : callGeminiLoopFuel oracle 1 3 = ⟨.error e1, 1, []⟩ := by
        simp [callGeminiLoopFuel, maxRetries, h1, hi1]
      rw [hval]
      refine ⟨by norm_num, by norm_num [maxRetries], h1.symm, ?_, ?_, by norm_num [initialDelay, List.range_succ]⟩
      · intro n hn1 hn2
        have hn : n < 1 := hn2
        omega
      · intro _ e he
        have he2 : oracle 1 = .error e := he
        rw [h1] at he2
        injection he2 with he3
        rw [← he3]
        exact hi1
    | true =>
      cases h2 : oracle 2 with
      | ok v2 =>
        have hval : callGeminiLoopFuel oracle 1 3 = ⟨.ok v2, 2, [1000]⟩ := by
          simp [callGeminiLoopFuel, maxRetries, h1, hi1, h2, initialDelay]
        rw [hval]
        refine ⟨by norm_num, by norm_num [maxRetries], h2.symm, ?_, ?_, by norm_num [initialDelay, List.range_succ]⟩
        · intro n hn1 hn2
          have hn : n < 2 := hn2
          interval_cases n
          exact ⟨e1, h1, hi1⟩
        · intro _ e he
          have he2 : oracle 2 = .error e := he
          rw [h2] at he2
          cases he2
      | error e2 =>
        cases hi2 : isInternalError e2 with
        | false =>
          have hval : callGeminiLoopFuel oracle 1 3 = ⟨.error e2, 2, [1000]⟩ := by
            simp [callGeminiLoopFuel, maxRetries, h1, hi1, h2, hi2, initialDelay]
          rw [hval]
          refine ⟨by norm_num, by norm_num [maxRetries], h2.symm, ?_, ?_, by norm_num [initialDelay, List.range_succ]⟩
          · intro n hn1 hn2
            have hn : n < 2 := hn2
            interval_cases n
            exact ⟨e1, h1, hi1⟩
          · intro _ e he
            have he2 : oracle 2 = .error e := he
            rw [h2] at he2
            injection he2 with he3
            rw [← he3]
            exact hi2
        | true =>
          cases h3 : oracle 3 with
          | ok v3 =>
            have hval : callGeminiLoopFuel oracle 1 3 = ⟨.ok v3, 3, [1000, 2000]⟩ := by
              simp [callGeminiLoopFuel, maxRetries, h1, hi1, h2, hi2, h3, initialDelay]
            rw [hval]
            refine ⟨by norm_num, by norm_num [maxRetries], h3.symm, ?_, ?_, by norm_num [initialDelay, List.range_succ]⟩
            · intro n hn1 hn2
              have hn : n < 3 := hn2
              interval_cases n
              · exact ⟨e1, h1, hi1⟩
              · exact ⟨e2, h2, hi2⟩
            · intro hlt
              have hlt2 : (3 : Nat) < 3 := hlt
              omega
          | error e3 =>
            have hval : callGeminiLoopFuel oracle 1 3 = ⟨.error e3, 3, [1000, 2000]⟩ := by
              simp [callGeminiLoopFuel, maxRetries, h1, hi1, h2, hi2, h3, initialDelay]
            rw [hval]
            refine ⟨by norm_num, by norm_num [maxRetries], h3.symm, ?_, ?_, by norm_num [initialDelay, List.range_succ]⟩
            · intro n hn1 hn2
              have hn : n < 3 := hn2
              interval_cases n
              · exact ⟨e1, h1, hi1⟩
              · exact ⟨e2, h2, hi2⟩
            · intro hlt
              have hlt2 : (3 : Nat) < 3 := hlt
              omega

/-- Witness for C2: two transient failures then a success make exactly
3 attempts with waits of 1000ms and 2000ms. -/
theorem c2_witness :
    1 ≤ (callGeminiWithRetry twoTransientThenOk).attempts ∧
    (callGeminiWithRetry twoTransientThenOk).attempts ≤ maxRetries ∧
    (callGeminiWithRetry twoTransientThenOk).result =
      twoTransientThenOk (callGeminiWithRetry twoTransientThenOk).attempts ∧
    (∀ n, 1 ≤ n → n < (callGeminiWithRetry twoTransientThenOk).attempts →
      ∃ e, twoTransientThenOk n = .error e ∧ isInternalError e = true) ∧
    ((callGeminiWithRetry twoTransientThenOk).attempts < maxRetries →
      ∀ e, twoTransientThenOk ((callGeminiWithRetry twoTransientThenOk).attempts) = .error e →
        isInternalError e = false) ∧
    (callGeminiWithRetry twoTransientThenOk).delays =
      (List.range ((callGeminiWithRetry twoTransientThenOk).attempts - 1)).map
        (fun i => initialDelay * 2 ^ i) :=
  c2_retry_policy twoTransientThenOk

/-- Scanning a part list whose first inline-data part is `p` yields
`p`'s inline data. -/
theorem firstInlineData_of_first (pre : List Part) (p : Part) (suf : List Part)
    (d : InlineData) (hpre : ∀ q ∈ pre, q.inlineData = none)
    (hp : p.inlineData = some d) :
    firstInlineData (pre ++ p :: suf) = some d := by
  induction pre with
  | nil => simp [firstInlineData, hp]
  | cons a l ih =>
    have ha : a.inlineData = none := hpre a (by simp)
    simp only [List.cons_append, firstInlineData, ha]
    exact ih (fun q hq => hpre q (by simp [hq]))

/-- Scanning a part list with no inline data yields nothing. -/
theorem firstInlineData_eq_none (ps : List Part)
    (h : ∀ p ∈ ps, p.inlineData = none) :
    firstInlineData ps = none := by
  induction ps with
  | nil => rfl
  | cons a l ih =>
    have ha : a.inlineData = none := h a (by simp)
    simp only [firstInlineData, ha]
    exact ih (fun p hp => h p (by simp [hp]))

/-- Claim C7: decoding scans the first candidate's parts in order and
returns the first inline-data part as a data URL whose mime type is that
part's declared mime type; with no inline-data part it fails with a
message containing the response's text, or the fixed placeholder when the
response carried no text. -/
theorem c7_response_decoding (response : GenerateContentResponse) :
    (∀ pre p suf d, responseParts response = pre ++ p :: suf →
        (∀ q ∈ pre, q.inlineData = none) → p.inlineData = some d →
        processGeminiResponse response =
          .ok ("data:" ++ d.mimeType ++ ";base64," ++ d.data)) ∧
    ((∀ p ∈ responseParts response, p.inlineData = none) →
      ∃ msg, processGeminiResponse response = .error msg ∧
        (∀ t : String, response.text = some t → ∃ a b, msg = a ++ t ++ b) ∧
        ((response.text = none ∨ response.text = some "") →
          ∃ a b, msg = a ++ "No text response received." ++ b)) := by
  constructor
  · intro pre p suf d hparts hpre hp
    unfold processGeminiResponse
    rw [hparts, firstInlineData_of_first pre p suf d hpre hp]
  · intro hall
    unfold processGeminiResponse
    rw [firstInlineData_eq_none _ hall]
    refine ⟨_, rfl, ?_, ?_⟩
    · intro t ht
      rw [ht]
      by_cases h0 : t = ""
      · subst h0
        refine ⟨"The AI model responded with text instead of an image: \"" ++
          "No text response received." ++ "\"", "", ?_⟩
        simp
      · refine ⟨"The AI model responded with text instead of an image: \"", "\"", ?_⟩
        simp [h0]
    · rintro (hn | he)
      · rw [hn]
        exact ⟨"The AI model responded with text instead of an image: \"", "\"", rfl⟩
      · rw [he]
        refine ⟨"The AI model responded with text instead of an image: \"", "\"", ?_⟩
        simp

/-- Witness for C7: a response whose second part carries inline image
data decodes to the matching data URL. -/
theorem c7_witness :
    processGeminiResponse
        { candidates := some ([{ content := some { parts := some (
            [{ inlineData := none, text := some "hola" },
             { inlineData := some { mimeType := "image/png", data := "QUJD" },
               text := none }]) } }]),
          text := some "hola" } =
      Except.ok ("data:" ++ "image/png" ++ ";base64," ++ "QUJD") :=
  (c7_response_decoding _).1 ([{ inlineData := none, text := some "hola" }])
    { inlineData := some { mimeType := "image/png", data := "QUJD" }, text := none } ([])
    { mimeType := "image/png", data := "QUJD" } rfl (by decide) rfl

/-- Consuming a literal from a list that starts with it leaves the rest. -/
theorem dropLit_self (p rest : List Char) : dropLit p (p ++ rest) = some rest := by
  induction p with
  | nil => rfl
  | cons c cs ih => simp [dropLit, ih]

/-- Evaluation of the regex model on a well-formed png data URL: it
matches exactly when the payload carries no line terminator, and then
captures mime `image/png` and the payload verbatim. -/
theorem matchDataUrl_png (X : String)
    (hX : ∀ c ∈ X.data, isLineTerminator c = false) :
    matchDataUrl ("data:image/png;base64," ++ X) = some ("image/png", X) := by
  obtain ⟨xd⟩ := X
  have hsplit : ("data:image/png;base64," ++ String.mk xd).data =
      "data:image/".data ++ ("png;base64,".data ++ xd) := by
    show "data:image/png;base64,".data ++ xd = _
    rw [show "data:image/png;base64,".data =
      "data:image/".data ++ "png;base64,".data from by decide, List.append_assoc]
  have hpw : isWordChar 'p' = true := by decide
  have hnw : isWordChar 'n' = true := by decide
  have hgw : isWordChar 'g' = true := by decide
  have hsw : isWordChar ';' = false := by decide
  have hc : "png;base64,".data = 'p' :: 'n' :: 'g' :: ';' :: "base64,".data := by decide
  have htw : List.takeWhile isWordChar ("png;base64,".data ++ xd) = ['p', 'n', 'g'] := by
    rw [hc]
    simp [List.takeWhile_cons, hpw, hnw, hgw, hsw]
  have hdw : List.dropWhile isWordChar ("png;base64,".data ++ xd) =
      ';' :: ("base64,".data ++ xd) := by
    rw [hc]
    simp [List.dropWhile_cons, hpw, hnw, hgw, hsw]
  have hdl : dropLit ";base64,".data (';' :: ("base64,".data ++ xd)) = some xd := by
    rw [show ";base64,".data = ';' :: "base64,".data from by decide]
    simp [dropLit, dropLit_self]
  have hall : List.all xd (fun c => !isLineTerminator c) = true := by
    rw [List.all_eq_true]
    intro c hc2
    rw [hX c hc2]
    rfl
  unfold matchDataUrl
  rw [hsplit, dropLit_self]
  simp only [htw, hdw, hdl, hall, List.isEmpty, if_true, if_false]
  simp [show String.mk ("image/".data ++ ['p', 'n', 'g']) = "image/png" from by decide]

/-- Claim C8 (amended): a data URL built as `data:image/png;base64,X`
decomposes to mime `image/png` and payload exactly `X` for every payload
`X` free of line terminators (`\n`, `\r`, U+2028, U+2029 — the regex's
`(.*)$` cannot match across them); and every input the regex rejects
fails immediately with the format error, with zero remote attempts and
no delay. -/
theorem c8_data_url_codec :
    (∀ X : String, (∀ c ∈ X.data, isLineTerminator c = false) →
      fileToGenerativePart ("data:image/png;base64," ++ X) =
        .ok { inlineData := some { mimeType := "image/png", data := X }, text := none }) ∧
    (∀ s : String, matchDataUrl s = none →
      fileToGenerativePart s = .error invalidDataUrlMsg ∧
      ∀ oracle : Nat → Except String GenerateContentResponse,
        removeAccessories oracle s = ⟨.error invalidDataUrlMsg, 0, []⟩) := by
  constructor
  · intro X hX
    unfold fileToGenerativePart
    rw [matchDataUrl_png X hX]
  · intro s hs
    constructor
    · unfold fileToGenerativePart
      rw [hs]
    · intro oracle
      unfold removeAccessories fileToGenerativePart
      rw [hs]

/-- Counterexample for C8 as stated: for the payload consisting of a
single newline the regex does not match (`.` cannot match a line
terminator and `$` only matches at end of input), so the encoder throws
the format error instead of decomposing the data URL. -/
theorem c8_counterexample :
    fileToGenerativePart ("data:image/png;base64," ++ "\n") ≠
      Except.ok { inlineData := some { mimeType := "image/png", data := "\n" },
                  text := none } := by
  decide

/-- Witness for C8: a plain payload round-trips, and a malformed input
fails with the format error and zero attempts. -/
theorem c8_witness :
    (fileToGenerativePart ("data:image/png;base64," ++ "abc") =
      Except.ok { inlineData := some { mimeType := "image/png", data := "abc" },
                  text := none }) ∧
    (fileToGenerativePart "nope" = Except.error invalidDataUrlMsg ∧
      ∀ oracle : Nat → Except String GenerateContentResponse,
        removeAccessories oracle "nope" = ⟨Except.error invalidDataUrlMsg, 0, []⟩) :=
  ⟨c8_data_url_codec.1 "abc" (by decide), c8_data_url_codec.2 "nope" (by decide)⟩

/-- Claim C9: the compositor's cell width equals (2480 − 3×80)/2; the
column x-position of index i is padding + (i mod 2)·(cellWidth+padding);
3 images give ceil(3/2) = 2 rows; and the second row's y-offset is the
header margin (350) plus padding (80) plus the scaled height of image 0
plus padding, where scaled height is cellWidth over the image's aspect
ratio. -/
theorem c9_album_layout (imgs : List ImgDim) (h3 : imgs.length = 3) :
    cellWidth = (2480 - 3 * 80) / 2 ∧
    (∀ i : ℕ, xPos i = gridPadding + ((i % 2 : ℕ) : ℚ) * (cellWidth + gridPadding)) ∧
    rowCount imgs.length = 2 ∧
    yOffsetFor imgs 2 = 350 + 80 + drawHeight (imgs.getD 0 ⟨1, 1⟩) + 80 := by
  refine ⟨?_, ?_, ?_, ?_⟩
  · norm_num [cellWidth, contentWidth, canvasWidth, gridPadding, gridCols]
  · intro i
    rfl
  · rw [h3]
    unfold rowCount gridCols
    rw [show ((3 : ℕ) : ℚ) / ((2 : ℕ) : ℚ) = 3 / 2 by norm_num]
    rw [Int.ceil_eq_iff]
    norm_num
  · unfold yOffsetFor rowOf gridCols
    norm_num [List.range_succ, contentTopMargin, gridPadding]

/-- Witness for C9 on three concrete images of equal aspect ratio. -/
theorem c9_witness :
    cellWidth = (2480 - 3 * 80) / 2 ∧
    (∀ i : ℕ, xPos i = gridPadding + ((i % 2 : ℕ) : ℚ) * (cellWidth + gridPadding)) ∧
    rowCount ([⟨2, 3⟩, ⟨2, 3⟩, ⟨2, 3⟩] : List ImgDim).length = 2 ∧
    yOffsetFor [⟨2, 3⟩, ⟨2, 3⟩, ⟨2, 3⟩] 2 =
      350 + 80 + drawHeight (([⟨2, 3⟩, ⟨2, 3⟩, ⟨2, 3⟩] : List ImgDim).getD 0 ⟨1, 1⟩) + 80 :=
  c9_album_layout [⟨2, 3⟩, ⟨2, 3⟩, ⟨2, 3⟩] rfl

end ProbadorVirtual
